import Mathlib

/-!
Verification development for the Kafka group-load ingestion tool.

The repository validates raw "group enrollment" records (Python dicts),
wraps each validated `GroupDetails` in a `GroupLoadMessage` envelope,
serializes the envelope to JSON and publishes it to a Kafka topic chosen
by environment, reporting per-record success.

The embedding below models:
  * JSON values (the shape of raw input dicts and of serialized payloads)
    as a mutual inductive `Json` / `JsonArr` / `JsonObj`;
  * `config.py` (`KafkaConfig`): pydantic `BaseSettings` construction with
    hard-coded defaults and a `Literal["dev","qa"]` environment field,
    plus the `current_topic` property;
  * `models.py`: `GroupMember` and `GroupDetails` pydantic models, their
    required/optional/defaulted fields, `to_kafka_message`
    (`model_dump_json`, modelled as a JSON tree plus a textual renderer)
    and `from_kafka_message` (`json.loads` + model construction; the
    `json.loads` of a rendered tree is modelled as yielding the tree back);
  * `kafka_producer.py`: `GroupLoadKafkaProducer.produce_group_message`,
    `close`, and the `GroupLoadStreamer` facade (`stream_group_data`,
    `stream_batch_data`).  The confluent-kafka client is modelled by an
    explicit per-attempt `BrokerBehavior` (whether `produce` raises,
    whether `flush` raises, and the delivery outcome that is reported to
    the delivery callback), and the producer's observable state is the
    list of produce calls the client has received plus its local queue.

Python `datetime` values are modelled opaquely as their ISO-8601 strings.
-/

/-! ## JSON values -/

mutual

/-- A JSON value: the shape of raw input records and serialized payloads. -/
inductive Json : Type where
  | null : Json
  | bool : Bool → Json
  | num : Int → Json
  | str : String → Json
  | arr : JsonArr → Json
  | obj : JsonObj → Json

/-- A JSON array (spine made explicit for structural recursion). -/
inductive JsonArr : Type where
  | nil : JsonArr
  | cons : Json → JsonArr → JsonArr

/-- A JSON object: ordered key/value pairs (the model of a Python dict). -/
inductive JsonObj : Type where
  | nil : JsonObj
  | cons : String → Json → JsonObj → JsonObj

end

deriving instance DecidableEq for Json
deriving instance DecidableEq for JsonArr
deriving instance DecidableEq for JsonObj
deriving instance Repr for Json
deriving instance Repr for JsonArr
deriving instance Repr for JsonObj

/-- `d.get(key)` on a Python dict: first (only) binding of `key`. -/
def JsonObj.lookup : JsonObj → String → Option Json
  | .nil, _ => none
  | .cons k v tl, key => if k = key then some v else tl.lookup key

/-- Build a JSON array from a Lean list. -/
def JsonArr.ofList : List Json → JsonArr
  | [] => .nil
  | j :: tl => .cons j (JsonArr.ofList tl)

/-- Build a JSON object from a Lean association list. -/
def JsonObj.ofList : List (String × Json) → JsonObj
  | [] => .nil
  | (k, v) :: tl => .cons k v (JsonObj.ofList tl)

/-! ### Textual rendering (the `model_dump_json` string layer)

`model_dump_json` emits compact JSON text.  `Json.render` is the
corresponding printer; `json.loads` applied to `render j` is modelled as
recovering the tree `j` itself, so deserialization functions below consume
`Json` trees directly. -/

/-- JSON string escaping for the printer. -/
def jsonEscapeChar (c : Char) : String :=
  if c = '"' then "\\\""
  else if c = '\\' then "\\\\"
  else if c = (Char.ofNat 10) then "\\n"
  else if c = (Char.ofNat 9) then "\\t"
  else if c = (Char.ofNat 13) then "\\r"
  else String.singleton c

/-- Render a string as a JSON string literal. -/
def jsonRenderString (s : String) : String :=
  "\"" ++ String.join (s.data.map jsonEscapeChar) ++ "\""

mutual

/-- Compact textual rendering of a JSON value. -/
def Json.render : Json → String
  | .null => "null"
  | .bool true => "true"
  | .bool false => "false"
  | .num n => toString n
  | .str s => jsonRenderString s
  | .arr a => "[" ++ JsonArr.render a ++ "]"
  | .obj o => "\x7b" ++ JsonObj.render o ++ "\x7d"

/-- Render the comma-separated elements of a JSON array. -/
def JsonArr.render : JsonArr → String
  | .nil => ""
  | .cons j .nil => Json.render j
  | .cons j tl => Json.render j ++ "," ++ JsonArr.render tl

/-- Render the comma-separated members of a JSON object. -/
def JsonObj.render : JsonObj → String
  | .nil => ""
  | .cons k v .nil => jsonRenderString k ++ ":" ++ Json.render v
  | .cons k v tl => jsonRenderString k ++ ":" ++ Json.render v ++ "," ++ JsonObj.render tl

end

/-- UTF-8 encoding of one character (`str.encode('utf-8')`, per code point). -/
def utf8EncodeChar (c : Char) : List Nat :=
  let n := c.toNat
  if n < 128 then [n]
  else if n < 2048 then [192 + n / 64, 128 + n % 64]
  else if n < 65536 then [224 + n / 4096, 128 + (n / 64) % 64, 128 + n % 64]
  else [240 + n / 262144, 128 + (n / 4096) % 64, 128 + (n / 64) % 64, 128 + n % 64]

/-- `s.encode('utf-8')`: the UTF-8 bytes of a string. -/
def utf8Bytes (s : String) : List Nat :=
  (s.data.map utf8EncodeChar).flatten

/-! ## `config.py` — `KafkaConfig` (pydantic `BaseSettings`) -/

/-- The validated value of the `Literal["dev", "qa"]` environment field. -/
inductive Env : Type where
  | dev : Env
  | qa : Env
deriving DecidableEq, Repr

/-- The string carried by the environment literal. -/
def Env.value : Env → String
  | .dev => "dev"
  | .qa => "qa"

/-- `KafkaConfig` (`config.py`): connection settings, environment, topics. -/
structure KafkaConfig where
  bootstrap_servers : String
  api_key : String
  api_secret : String
  environment : Env
  dev_topic : String
  qa_topic : String
deriving DecidableEq, Repr

/-- Validation of the `Literal["dev", "qa"]` annotation: only the two
literal strings are accepted. -/
def parseEnvironment (s : String) : Option Env :=
  if s = "dev" then some Env.dev
  else if s = "qa" then some Env.qa
  else none

/-- `KafkaConfig()` construction: each field takes the supplied setting
(environment variable / `.env` entry) when present, and the hard-coded
`Field(default=...)` otherwise; the environment field is validated against
its literal annotation and rejects any other value. -/
def mkKafkaConfig (bootstrap_servers api_key api_secret environment
    dev_topic qa_topic : Option String) : Except String KafkaConfig :=
  let base : Env → KafkaConfig := fun e =>
    { bootstrap_servers :=
        bootstrap_servers.getD "lkc-g1r211.dom8wd1r3wx.us-east4.gcp.confluent.cloud:9092"
      api_key := api_key.getD "SY367CYSVPCVDNXJ"
      api_secret := api_secret.getD "Zyqm1BIID+G8/426QP6FNIYw/bl6kgolKbpnlh6nyZ9c+JcC/Qnt9bGXQDsb/wvQ"
      environment := e
      dev_topic := dev_topic.getD "gcp.pss.groupfl.mypbmcaa.dev.groupdetails"
      qa_topic := qa_topic.getD "gcp.pss.groupfl.mypbmcaa.qa.groupdetails" }
  match environment with
  | none => .ok (base Env.dev)
  | some s =>
    match parseEnvironment s with
    | some e => .ok (base e)
    | none => .error "environment: unexpected value; permitted: dev, qa"

/-- `KafkaConfig.current_topic`:
`self.dev_topic if self.environment == "dev" else self.qa_topic`. -/
def KafkaConfig.current_topic (c : KafkaConfig) : String :=
  if c.environment = Env.dev then c.dev_topic else c.qa_topic

/-! ## `models.py` — pydantic data models -/

/-- Python `datetime`, modelled opaquely by its ISO-8601 rendering. -/
abbrev DateTime := String

/-- `GroupMember` (`models.py`): one enrollee. -/
structure GroupMember where
  member_id : String
  first_name : String
  last_name : String
  email : String
  phone : Option String
  date_of_birth : Option String
  address : Option (List (String × String))
  enrollment_date : Option String
  status : String
deriving DecidableEq, Repr

/-- `GroupDetails` (`models.py`): one enrollment group. -/
structure GroupDetails where
  group_id : String
  group_name : String
  group_type : String
  effective_date : String
  termination_date : Option String
  status : String
  members : List GroupMember
  created_at : DateTime
  updated_at : DateTime
  metadata : Option JsonObj
deriving DecidableEq, Repr

/-- `GroupLoadMessage` (`models.py`): the wire envelope. -/
structure GroupLoadMessage where
  message_type : String
  timestamp : DateTime
  environment : String
  group_details : GroupDetails
  message_id : String
deriving DecidableEq, Repr

/-! ### Field extraction (pydantic validation of one field) -/

/-- A required `str` field (`Field(...)`): present and a string. -/
def getReqStr (o : JsonObj) (k : String) : Except String String :=
  match o.lookup k with
  | some (.str s) => .ok s
  | some _ => .error (k ++ ": str type expected")
  | none => .error (k ++ ": field required")

/-- An `Optional[str]` field (`Field(None)`): absent or null gives `none`. -/
def getOptStr (o : JsonObj) (k : String) : Except String (Option String) :=
  match o.lookup k with
  | none => .ok none
  | some .null => .ok none
  | some (.str s) => .ok (some s)
  | some _ => .error (k ++ ": str type expected")

/-- A `str` field with a default (`Field(default=...)`): absent gives the
default; null is not an allowed value for a non-optional `str`. -/
def getDefStr (o : JsonObj) (k : String) (dflt : String) : Except String String :=
  match o.lookup k with
  | none => .ok dflt
  | some (.str s) => .ok s
  | some _ => .error (k ++ ": str type expected")

/-- A `Dict[str, str]` value: every member value must be a string. -/
def objToStrMap : JsonObj → Except String (List (String × String))
  | .nil => .ok []
  | .cons k (.str v) tl => (objToStrMap tl).map (fun r => (k, v) :: r)
  | .cons k _ _ => .error (k ++ ": str type expected")

/-- An `Optional[Dict[str, str]]` field (the member `address`). -/
def getOptStrMap (o : JsonObj) (k : String) :
    Except String (Option (List (String × String))) :=
  match o.lookup k with
  | none => .ok none
  | some .null => .ok none
  | some (.obj m) => (objToStrMap m).map some
  | some _ => .error (k ++ ": dict type expected")

/-- An `Optional[Dict[str, Any]]` field (the group `metadata`). -/
def getOptObj (o : JsonObj) (k : String) : Except String (Option JsonObj) :=
  match o.lookup k with
  | none => .ok none
  | some .null => .ok none
  | some (.obj m) => .ok (some m)
  | some _ => .error (k ++ ": dict type expected")

/-! ### Model construction (pydantic validation, `Model(**raw)`) -/

/-- `GroupMember(**raw)`: pydantic validation of a raw member dict.
Required: `member_id`, `first_name`, `last_name`, `email`.  Optional with
`None` default: `phone`, `date_of_birth`, `address`, `enrollment_date`.
Defaulted: `status = "active"`. -/
def GroupMember.validate (o : JsonObj) : Except String GroupMember :=
  Except.bind (getReqStr o "member_id") fun mi =>
  Except.bind (getReqStr o "first_name") fun fn =>
  Except.bind (getReqStr o "last_name") fun ln =>
  Except.bind (getReqStr o "email") fun em =>
  Except.bind (getOptStr o "phone") fun ph =>
  Except.bind (getOptStr o "date_of_birth") fun dob =>
  Except.bind (getOptStrMap o "address") fun ad =>
  Except.bind (getOptStr o "enrollment_date") fun en =>
  Except.bind (getDefStr o "status" "active") fun st =>
  .ok { member_id := mi, first_name := fn, last_name := ln, email := em,
        phone := ph, date_of_birth := dob, address := ad,
        enrollment_date := en, status := st }

/-- Validation of the `members` list: each element must be a dict that
validates as a `GroupMember`. -/
def validateMembers : JsonArr → Except String (List GroupMember)
  | .nil => .ok []
  | .cons (.obj m) tl =>
    Except.bind (GroupMember.validate m) fun gm =>
    Except.bind (validateMembers tl) fun rest =>
    .ok (gm :: rest)
  | .cons _ _ => .error "members: dict type expected"

/-- The required `members` field: present and a list. -/
def getMembersField (o : JsonObj) : Except String (List GroupMember) :=
  match o.lookup "members" with
  | some (.arr a) => validateMembers a
  | some _ => .error "members: list type expected"
  | none => .error "members: field required"

/-- `GroupDetails(**raw)`: pydantic validation of a raw group dict at
construction time `now`.  Required: `group_id`, `group_name`, `group_type`,
`effective_date`, `members`.  Optional with `None` default:
`termination_date`, `metadata`.  Defaulted: `status = "active"`,
`created_at`/`updated_at` from `default_factory=datetime.utcnow`. -/
def GroupDetails.validate (o : JsonObj) (now : DateTime) :
    Except String GroupDetails :=
  Except.bind (getReqStr o "group_id") fun gid =>
  Except.bind (getReqStr o "group_name") fun gname =>
  Except.bind (getReqStr o "group_type") fun gtype =>
  Except.bind (getReqStr o "effective_date") fun eff =>
  Except.bind (getOptStr o "termination_date") fun term =>
  Except.bind (getDefStr o "status" "active") fun st =>
  Except.bind (getMembersField o) fun ms =>
  Except.bind (getDefStr o "created_at" now) fun ca =>
  Except.bind (getDefStr o "updated_at" now) fun ua =>
  Except.bind (getOptObj o "metadata") fun md =>
  .ok { group_id := gid, group_name := gname, group_type := gtype,
        effective_date := eff, termination_date := term, status := st,
        members := ms, created_at := ca, updated_at := ua, metadata := md }

/-! ### Serialization (`model_dump_json`, represented as the JSON tree) -/

/-- Dump of an `Optional[str]` field. -/
def optStrJson : Option String → Json
  | none => .null
  | some s => .str s

/-- Dump of a `Dict[str, str]` value. -/
def strMapJson : List (String × String) → JsonObj
  | [] => .nil
  | (k, v) :: tl => .cons k (.str v) (strMapJson tl)

/-- Dump of the optional member `address`. -/
def optStrMapJson : Option (List (String × String)) → Json
  | none => .null
  | some m => .obj (strMapJson m)

/-- Dump of the optional group `metadata`. -/
def optObjJson : Option JsonObj → Json
  | none => .null
  | some o => .obj o

/-- `model_dump` of one `GroupMember`, fields in declaration order. -/
def GroupMember.toJson (m : GroupMember) : Json :=
  .obj (JsonObj.ofList
    [("member_id", .str m.member_id), ("first_name", .str m.first_name),
     ("last_name", .str m.last_name), ("email", .str m.email),
     ("phone", optStrJson m.phone),
     ("date_of_birth", optStrJson m.date_of_birth),
     ("address", optStrMapJson m.address),
     ("enrollment_date", optStrJson m.enrollment_date),
     ("status", .str m.status)])

/-- Dump of the `members` list. -/
def membersJson : List GroupMember → JsonArr
  | [] => .nil
  | m :: tl => .cons m.toJson (membersJson tl)

/-- `GroupDetails.to_kafka_message` (`model_dump_json`): the JSON document
emitted for a group, represented as its tree; `Json.render` is the text. -/
def GroupDetails.to_kafka_message (g : GroupDetails) : Json :=
  .obj (JsonObj.ofList
    [("group_id", .str g.group_id), ("group_name", .str g.group_name),
     ("group_type", .str g.group_type),
     ("effective_date", .str g.effective_date),
     ("termination_date", optStrJson g.termination_date),
     ("status", .str g.status),
     ("members", .arr (membersJson g.members)),
     ("created_at", .str g.created_at), ("updated_at", .str g.updated_at),
     ("metadata", optObjJson g.metadata)])

/-- `GroupDetails.from_kafka_message`: `json.loads` of the received text
(represented as the tree it yields) followed by `cls(**data)`; a non-dict
document fails (`cls(**data)` raises).  `now` is the construction time
used by the timestamp `default_factory` when a timestamp key is absent. -/
def GroupDetails.from_kafka_message (j : Json) (now : DateTime) :
    Except String GroupDetails :=
  match j with
  | .obj o => GroupDetails.validate o now
  | _ => .error "from_kafka_message: dict document expected"

/-- `GroupLoadMessage(environment=…, group_details=…, message_id=…)`:
the envelope as built in `produce_group_message`, with `message_type`
defaulting to `"group_load"` and `timestamp` from
`default_factory=datetime.utcnow` (the construction time `now`). -/
def GroupLoadMessage.make (now : DateTime) (environment : String)
    (gd : GroupDetails) (message_id : String) : GroupLoadMessage :=
  { message_type := "group_load", timestamp := now,
    environment := environment, group_details := gd,
    message_id := message_id }

/-- `GroupLoadMessage.to_kafka_message` (`model_dump_json`): the envelope's
JSON document, fields in declaration order, represented as its tree. -/
def GroupLoadMessage.to_kafka_message (m : GroupLoadMessage) : Json :=
  .obj (JsonObj.ofList
    [("message_type", .str m.message_type),
     ("timestamp", .str m.timestamp),
     ("environment", .str m.environment),
     ("group_details", m.group_details.to_kafka_message),
     ("message_id", .str m.message_id)])

/-! ## `kafka_producer.py` — producer and streaming facade

The confluent-kafka `Producer` is external; its behaviour at each produce
attempt is supplied explicitly: whether `producer.produce(...)` raises,
whether `producer.flush(timeout=10)` raises, and the delivery outcome the
broker reports to the delivery callback for the flushed message.  The
producer's observable state is the list of produce calls the client has
received, its local queue of enqueued-but-unflushed records, and the log
of delivery outcomes reported to `_delivery_callback`. -/

/-- The broker's delivery outcome for one message, as reported to the
delivery callback: acknowledged, not acknowledged within the flush
timeout, or actively rejected. -/
inductive DeliveryOutcome : Type where
  | acked : DeliveryOutcome
  | timedOut : DeliveryOutcome
  | rejected : DeliveryOutcome
deriving DecidableEq, Repr

/-- External client behaviour for one produce attempt. -/
structure BrokerBehavior where
  produceRaises : Bool
  flushRaises : Bool
  outcome : DeliveryOutcome
deriving DecidableEq, Repr

/-- One `producer.produce(topic=…, value=…, key=…)` call as the broker
client receives it. -/
structure KafkaMessage where
  topic : String
  key : List Nat
  value : List Nat
deriving DecidableEq, Repr

/-- Observable state of the `GroupLoadKafkaProducer`'s client. -/
structure ProducerState where
  calls : List KafkaMessage
  queue : List KafkaMessage
  reports : List DeliveryOutcome
deriving DecidableEq, Repr

/-- A freshly initialized producer: no calls, empty queue, no reports. -/
def initProducerState : ProducerState :=
  { calls := [], queue := [], reports := [] }

/-- `if not message_id: message_id = str(uuid.uuid4())` — Python
falsiness: a missing id or the empty string is replaced by a fresh UUID. -/
def resolveMessageId : Option String → String → String
  | none, u => u
  | some s, u => if s = "" then u else s

/-- `GroupLoadKafkaProducer.produce_group_message`: build the
`GroupLoadMessage` envelope, serialize it, call `producer.produce` with
the JSON bytes as value and the message id's UTF-8 bytes as key, then
`producer.flush(timeout=10)`.  Any exception is caught and yields
`False`; otherwise `True` is returned.  Delivery callbacks fire during
the flush and are observability-only: the flush result and the reported
outcome do not influence the returned boolean. -/
def GroupLoadKafkaProducer.produce_group_message (cfg : KafkaConfig)
    (beh : BrokerBehavior) (freshUuid : String) (now : DateTime)
    (group_details : GroupDetails) (message_id : Option String)
    (st : ProducerState) : Bool × ProducerState :=
  let mid := resolveMessageId message_id freshUuid
  let message := GroupLoadMessage.make now cfg.environment.value group_details mid
  let rcd : KafkaMessage :=
    { topic := cfg.current_topic, key := utf8Bytes mid,
      value := utf8Bytes (Json.render message.to_kafka_message) }
  if beh.produceRaises then
    (false, { st with calls := st.calls ++ [rcd] })
  else
    let st1 : ProducerState :=
      { st with calls := st.calls ++ [rcd], queue := st.queue ++ [rcd] }
    if beh.flushRaises then
      (false, st1)
    else
      let reported := st1.reports ++ st1.queue.map (fun _ => beh.outcome)
      (true, { calls := st1.calls, queue := [], reports := reported })

/-- `GroupLoadKafkaProducer.close`: `self.producer.flush()` and a log
line — the queue is flushed (callbacks fire for whatever was pending) and
nothing else changes; in particular no closed flag exists. -/
def GroupLoadKafkaProducer.close (beh : BrokerBehavior)
    (st : ProducerState) : ProducerState :=
  { calls := st.calls, queue := [],
    reports := st.reports ++ st.queue.map (fun _ => beh.outcome) }

/-- `GroupLoadStreamer.stream_group_data`: validate the raw dict into a
`GroupDetails` and produce it; a validation exception is caught and
yields `False`.  `behs n` / `uuids n` give the broker behaviour and the
generated UUID for the n-th produce call the client receives. -/
def GroupLoadStreamer.stream_group_data (cfg : KafkaConfig)
    (behs : Nat → BrokerBehavior) (uuids : Nat → String) (now : DateTime)
    (group_data : JsonObj) (st : ProducerState) : Bool × ProducerState :=
  match GroupDetails.validate group_data now with
  | .ok gd =>
    GroupLoadKafkaProducer.produce_group_message cfg (behs st.calls.length)
      (uuids st.calls.length) now gd none st
  | .error _ => (false, st)

/-- The result mapping built by `stream_batch_data`: a Python dict from
result keys (JSON values) to booleans, insertion-ordered. -/
abbrev ResultMap := List (Json × Bool)

/-- Python dict read: first (only) binding of the key. -/
def ResultMap.lookup : ResultMap → Json → Option Bool
  | [], _ => none
  | (k', v') :: tl, k => if k' = k then some v' else ResultMap.lookup tl k

/-- Python dict write `results[key] = value`: replace in place when the
key is present, append otherwise. -/
def ResultMap.upsert : ResultMap → Json → Bool → ResultMap
  | [], k, v => [(k, v)]
  | (k', v') :: tl, k, v =>
    if k' = k then (k, v) :: tl else (k', v') :: ResultMap.upsert tl k v

/-- The key under which `stream_batch_data` records one raw record's
outcome: the validated record's `group_id`, or on a validation failure
`group_data.get('group_id', 'unknown')`. -/
def recordKey (group_data : JsonObj) (now : DateTime) : Json :=
  match GroupDetails.validate group_data now with
  | .ok gd => .str gd.group_id
  | .error _ => (group_data.lookup "group_id").getD (.str "unknown")

/-- The loop body of `GroupLoadStreamer.stream_batch_data`: for each raw
dict, validate and produce, recording the outcome under the record's key;
a validation exception is caught, recorded as `False` under
`group_data.get('group_id', 'unknown')`, and the loop continues. -/
def streamBatchLoop (cfg : KafkaConfig) (behs : Nat → BrokerBehavior)
    (uuids : Nat → String) (now : DateTime) :
    List JsonObj → ProducerState → ResultMap → ResultMap × ProducerState
  | [], st, results => (results, st)
  | group_data :: rest, st, results =>
    match GroupDetails.validate group_data now with
    | .ok gd =>
      let r := GroupLoadKafkaProducer.produce_group_message cfg
        (behs st.calls.length) (uuids st.calls.length) now gd none st
      streamBatchLoop cfg behs uuids now rest r.2
        (results.upsert (.str gd.group_id) r.1)
    | .error _ =>
      streamBatchLoop cfg behs uuids now rest st
        (results.upsert ((group_data.lookup "group_id").getD (.str "unknown")) false)

/-- `GroupLoadStreamer.stream_batch_data`: run the loop with an empty
results dict. -/
def GroupLoadStreamer.stream_batch_data (cfg : KafkaConfig)
    (behs : Nat → BrokerBehavior) (uuids : Nat → String) (now : DateTime)
    (batch_data : List JsonObj) (st : ProducerState) :
    ResultMap × ProducerState :=
  streamBatchLoop cfg behs uuids now batch_data st []

/-- `GroupLoadStreamer.close`: delegates to the producer's `close`. -/
def GroupLoadStreamer.close (beh : BrokerBehavior)
    (st : ProducerState) : ProducerState :=
  GroupLoadKafkaProducer.close beh st

/-! ## Validity predicates and concrete fixtures -/

/-- Whether `GroupMember(**raw)` succeeds. -/
def validMember (raw : JsonObj) : Bool :=
  match GroupMember.validate raw with
  | .ok _ => true
  | .error _ => false

/-- Whether `GroupDetails(**raw)` succeeds at construction time `now`. -/
def validGroup (raw : JsonObj) (now : DateTime) : Bool :=
  match GroupDetails.validate raw now with
  | .ok _ => true
  | .error _ => false

/-- A fixed configuration for concrete runs: dev environment. -/
def cfg0 : KafkaConfig :=
  { bootstrap_servers := "broker.example:9092", api_key := "k",
    api_secret := "s", environment := Env.dev,
    dev_topic := "topic.dev", qa_topic := "topic.qa" }

/-- A fixed construction time. -/
def now0 : DateTime := "2024-01-01T00:00:00"

/-- Deterministic fresh UUIDs for concrete runs. -/
def uuids0 : Nat → String := fun n => "uuid-" ++ toString n

/-- A broker that acknowledges every delivery; no call raises. -/
def behsOk : Nat → BrokerBehavior :=
  fun _ => { produceRaises := false, flushRaises := false, outcome := .acked }

/-- A broker that actively rejects every delivery, reporting the failure
to the delivery callback; no call raises. -/
def behsRej : Nat → BrokerBehavior :=
  fun _ => { produceRaises := false, flushRaises := false, outcome := .rejected }

/-- A broker whose flush raises on every attempt: enqueue succeeds but
the publish call fails, so `produce_group_message` returns `False`. -/
def behsFail : Nat → BrokerBehavior :=
  fun _ => { produceRaises := false, flushRaises := true,
             outcome := .timedOut }

/-- A raw member record carrying exactly the required fields. -/
def rawMember0 : JsonObj := JsonObj.ofList
  [("member_id", .str "M1"), ("first_name", .str "Ada"),
   ("last_name", .str "Lovelace"), ("email", .str "ada@example.com")]

/-- A raw group record carrying exactly the required fields; it passes
validation. -/
def rawGroup0 : JsonObj := JsonObj.ofList
  [("group_id", .str "GRP_12345"), ("group_name", .str "Acme Group Plan"),
   ("group_type", .str "corporate"), ("effective_date", .str "2024-01-01"),
   ("members", .arr (JsonArr.ofList [.obj rawMember0]))]

/-- A second valid raw group record with a distinct identifier. -/
def rawGroup1 : JsonObj := JsonObj.ofList
  [("group_id", .str "GRP_67890"), ("group_name", .str "Beta Group Plan"),
   ("group_type", .str "individual"), ("effective_date", .str "2024-02-01"),
   ("members", .arr (JsonArr.ofList [.obj rawMember0]))]

/-- An empty raw record: fails validation and its identifier cannot be
read, so its result key falls back to `"unknown"`. -/
def rawBad0 : JsonObj := JsonObj.nil

/-- A raw record with a readable `group_id` that still fails validation
(`group_name` and the other required fields are missing). -/
def rawBad1 : JsonObj := JsonObj.ofList [("group_id", .str "GRP_X")]

/-- A valid raw group record sharing its identifier with `rawBad1`. -/
def rawGroupX : JsonObj := JsonObj.ofList
  [("group_id", .str "GRP_X"), ("group_name", .str "Xeno Group Plan"),
   ("group_type", .str "family"), ("effective_date", .str "2024-03-01"),
   ("members", .arr (JsonArr.ofList [.obj rawMember0]))]

/-- The member fixture as a validated model value. -/
def member0 : GroupMember :=
  { member_id := "M1", first_name := "Ada", last_name := "Lovelace",
    email := "ada@example.com", phone := none, date_of_birth := none,
    address := none, enrollment_date := none, status := "active" }

/-- The group fixture as a validated model value. -/
def gd0 : GroupDetails :=
  { group_id := "GRP_12345", group_name := "Acme Group Plan",
    group_type := "corporate", effective_date := "2024-01-01",
    termination_date := none, status := "active", members := [member0],
    created_at := now0, updated_at := now0, metadata := none }

/-- The boolean outcome the batch loop records for one raw record
processed from producer state `st`: the produce result on validation
success, `False` on a validation failure. -/
def batchStepVal (cfg : KafkaConfig) (behs : Nat → BrokerBehavior)
    (uuids : Nat → String) (now : DateTime) (raw : JsonObj)
    (st : ProducerState) : Bool :=
  match GroupDetails.validate raw now with
  | .ok gd =>
    (GroupLoadKafkaProducer.produce_group_message cfg (behs st.calls.length)
      (uuids st.calls.length) now gd none st).1
  | .error _ => false

/-- The producer state after the batch loop has processed one raw record
from state `st`: unchanged on a validation failure. -/
def batchStepState (cfg : KafkaConfig) (behs : Nat → BrokerBehavior)
    (uuids : Nat → String) (now : DateTime) (raw : JsonObj)
    (st : ProducerState) : ProducerState :=
  match GroupDetails.validate raw now with
  | .ok gd =>
    (GroupLoadKafkaProducer.produce_group_message cfg (behs st.calls.length)
      (uuids st.calls.length) now gd none st).2
  | .error _ => st

/-! ## Helper lemmas -/

theorem except_bind_ok {α β : Type} (a : α) (f : α → Except String β) :
    Except.bind (Except.ok a) f = f a := rfl

theorem except_bind_error {α β : Type} (e : String) (f : α → Except String β) :
    Except.bind (Except.error e) f = (Except.error e : Except String β) := rfl

theorem except_bind_ok_inv {α β : Type} {x : Except String α}
    {f : α → Except String β} {b : β} (h : Except.bind x f = .ok b) :
    ∃ a, x = .ok a ∧ f a = .ok b := by
  cases x with
  | ok a => exact ⟨a, rfl, h⟩
  | error e => exact absurd h (by simp [Except.bind])

theorem ResultMap.lookup_upsert (m : ResultMap) (k : Json) (v : Bool)
    (k' : Json) :
    (m.upsert k v).lookup k' = if k' = k then some v else m.lookup k' := by
  induction m with
  | nil =>
    by_cases h : k' = k
    · subst h; simp [ResultMap.upsert, ResultMap.lookup]
    · simp [ResultMap.upsert, ResultMap.lookup, h, Ne.symm h]
  | cons kv tl ih =>
    obtain ⟨k₀, v₀⟩ := kv
    by_cases h0 : k₀ = k
    · subst h0
      by_cases h : k' = k₀
      · subst h; simp [ResultMap.upsert, ResultMap.lookup]
      · simp [ResultMap.upsert, ResultMap.lookup, h, Ne.symm h]
    · by_cases h : k' = k₀
      · subst h
        simp [ResultMap.upsert, ResultMap.lookup, h0, Ne.symm h0]
      · simp [ResultMap.upsert, ResultMap.lookup, h0, h, Ne.symm h, ih]

theorem ResultMap.length_upsert_of_lookup_none (m : ResultMap) (k : Json)
    (v : Bool) (h : m.lookup k = none) :
    (m.upsert k v).length = m.length + 1 := by
  induction m with
  | nil => rfl
  | cons kv tl ih =>
    obtain ⟨k₀, v₀⟩ := kv
    by_cases h0 : k₀ = k
    · subst h0; simp [ResultMap.lookup] at h
    · simp [ResultMap.lookup, h0] at h
      simp [ResultMap.upsert, h0, ih h]

theorem ResultMap.length_upsert_of_lookup_isSome (m : ResultMap) (k : Json)
    (v : Bool) (h : (m.lookup k).isSome = true) :
    (m.upsert k v).length = m.length := by
  induction m with
  | nil => simp [ResultMap.lookup] at h
  | cons kv tl ih =>
    obtain ⟨k₀, v₀⟩ := kv
    by_cases h0 : k₀ = k
    · subst h0; simp [ResultMap.upsert]
    · simp [ResultMap.lookup, h0] at h
      simp [ResultMap.upsert, h0, ih h]

theorem produce_group_message_calls (cfg : KafkaConfig) (beh : BrokerBehavior)
    (u : String) (now : DateTime) (gd : GroupDetails) (mid : Option String)
    (st : ProducerState) :
    (GroupLoadKafkaProducer.produce_group_message cfg beh u now gd mid st).2.calls =
      st.calls ++
        [{ topic := cfg.current_topic,
           key := utf8Bytes (resolveMessageId mid u),
           value := utf8Bytes (Json.render
             ((GroupLoadMessage.make now cfg.environment.value gd
                (resolveMessageId mid u)).to_kafka_message)) }] := by
  unfold GroupLoadKafkaProducer.produce_group_message
  by_cases h1 : beh.produceRaises <;> by_cases h2 : beh.flushRaises <;>
    simp [h1, h2]

theorem produce_group_message_fst (cfg : KafkaConfig) (beh : BrokerBehavior)
    (u : String) (now : DateTime) (gd : GroupDetails) (mid : Option String)
    (st : ProducerState) :
    (GroupLoadKafkaProducer.produce_group_message cfg beh u now gd mid st).1 =
      (!beh.produceRaises && !beh.flushRaises) := by
  unfold GroupLoadKafkaProducer.produce_group_message
  by_cases h1 : beh.produceRaises <;> by_cases h2 : beh.flushRaises <;>
    simp [h1, h2]

theorem recordKey_ok {raw : JsonObj} {now : DateTime} {gd : GroupDetails}
    (h : GroupDetails.validate raw now = .ok gd) :
    recordKey raw now = .str gd.group_id := by
  simp [recordKey, h]

theorem recordKey_error {raw : JsonObj} {now : DateTime} {e : String}
    (h : GroupDetails.validate raw now = .error e) :
    recordKey raw now = (raw.lookup "group_id").getD (.str "unknown") := by
  simp [recordKey, h]

theorem validGroup_of_ok {raw : JsonObj} {now : DateTime} {gd : GroupDetails}
    (h : GroupDetails.validate raw now = .ok gd) :
    validGroup raw now = true := by
  simp [validGroup, h]

theorem validGroup_of_error {raw : JsonObj} {now : DateTime} {e : String}
    (h : GroupDetails.validate raw now = .error e) :
    validGroup raw now = false := by
  simp [validGroup, h]

theorem validate_error_of_validGroup_false {raw : JsonObj} {now : DateTime}
    (h : validGroup raw now = false) :
    ∃ e, GroupDetails.validate raw now = .error e := by
  cases hv : GroupDetails.validate raw now with
  | ok gd => rw [validGroup_of_ok hv] at h; cases h
  | error e => exact ⟨e, rfl⟩

theorem streamBatchLoop_cons_ok (cfg : KafkaConfig)
    (behs : Nat → BrokerBehavior) (uuids : Nat → String) (now : DateTime)
    (raw : JsonObj) (rest : List JsonObj) (st : ProducerState)
    (acc : ResultMap) {gd : GroupDetails}
    (h : GroupDetails.validate raw now = .ok gd) :
    streamBatchLoop cfg behs uuids now (raw :: rest) st acc =
      streamBatchLoop cfg behs uuids now rest
        (GroupLoadKafkaProducer.produce_group_message cfg
          (behs st.calls.length) (uuids st.calls.length) now gd none st).2
        (acc.upsert (.str gd.group_id)
          (GroupLoadKafkaProducer.produce_group_message cfg
            (behs st.calls.length) (uuids st.calls.length) now gd none st).1) := by
  simp [streamBatchLoop, h]

theorem streamBatchLoop_cons_error (cfg : KafkaConfig)
    (behs : Nat → BrokerBehavior) (uuids : Nat → String) (now : DateTime)
    (raw : JsonObj) (rest : List JsonObj) (st : ProducerState)
    (acc : ResultMap) {e : String}
    (h : GroupDetails.validate raw now = .error e) :
    streamBatchLoop cfg behs uuids now (raw :: rest) st acc =
      streamBatchLoop cfg behs uuids now rest st
        (acc.upsert ((raw.lookup "group_id").getD (.str "unknown")) false) := by
  simp [streamBatchLoop, h]

theorem streamBatchLoop_append (cfg : KafkaConfig)
    (behs : Nat → BrokerBehavior) (uuids : Nat → String) (now : DateTime)
    (b1 b2 : List JsonObj) : ∀ (st : ProducerState) (acc : ResultMap),
    streamBatchLoop cfg behs uuids now (b1 ++ b2) st acc =
      streamBatchLoop cfg behs uuids now b2
        (streamBatchLoop cfg behs uuids now b1 st acc).2
        (streamBatchLoop cfg behs uuids now b1 st acc).1 := by
  induction b1 with
  | nil => intro st acc; rfl
  | cons raw rest ih =>
    intro st acc
    cases hv : GroupDetails.validate raw now with
    | ok gd =>
      rw [List.cons_append, streamBatchLoop_cons_ok cfg behs uuids now raw
        (rest ++ b2) st acc hv, ih,
        streamBatchLoop_cons_ok cfg behs uuids now raw rest st acc hv]
    | error e =>
      rw [List.cons_append, streamBatchLoop_cons_error cfg behs uuids now raw
        (rest ++ b2) st acc hv, ih,
        streamBatchLoop_cons_error cfg behs uuids now raw rest st acc hv]

theorem streamBatchLoop_lookup_not_mem (cfg : KafkaConfig)
    (behs : Nat → BrokerBehavior) (uuids : Nat → String) (now : DateTime)
    (batch : List JsonObj) : ∀ (st : ProducerState) (acc : ResultMap)
    (k : Json), (∀ raw ∈ batch, recordKey raw now ≠ k) →
    ((streamBatchLoop cfg behs uuids now batch st acc).1).lookup k =
      acc.lookup k := by
  induction batch with
  | nil => intro st acc k _; rfl
  | cons raw rest ih =>
    intro st acc k h
    have hk : recordKey raw now ≠ k := h raw (List.mem_cons_self raw rest)
    have hrest : ∀ r ∈ rest, recordKey r now ≠ k :=
      fun r hr => h r (List.mem_cons_of_mem _ hr)
    cases hv : GroupDetails.validate raw now with
    | ok gd =>
      rw [streamBatchLoop_cons_ok cfg behs uuids now raw rest st acc hv,
        ih _ _ _ hrest, ResultMap.lookup_upsert]
      rw [recordKey_ok hv] at hk
      rw [if_neg (fun h' => hk h'.symm)]
    | error e =>
      rw [streamBatchLoop_cons_error cfg behs uuids now raw rest st acc hv,
        ih _ _ _ hrest, ResultMap.lookup_upsert]
      rw [recordKey_error hv] at hk
      rw [if_neg (fun h' => hk h'.symm)]

theorem streamBatchLoop_lookup_isSome_mono (cfg : KafkaConfig)
    (behs : Nat → BrokerBehavior) (uuids : Nat → String) (now : DateTime)
    (batch : List JsonObj) : ∀ (st : ProducerState) (acc : ResultMap)
    (k : Json), (acc.lookup k).isSome = true →
    (((streamBatchLoop cfg behs uuids now batch st acc).1).lookup k).isSome
      = true := by
  induction batch with
  | nil => intro st acc k h; exact h
  | cons raw rest ih =>
    intro st acc k h
    cases hv : GroupDetails.validate raw now with
    | ok gd =>
      rw [streamBatchLoop_cons_ok cfg behs uuids now raw rest st acc hv]
      apply ih
      rw [ResultMap.lookup_upsert]
      by_cases hk : k = Json.str gd.group_id
      · simp [hk]
      · simp [hk, h]
    | error e =>
      rw [streamBatchLoop_cons_error cfg behs uuids now raw rest st acc hv]
      apply ih
      rw [ResultMap.lookup_upsert]
      by_cases hk : k = (raw.lookup "group_id").getD (.str "unknown")
      · simp [hk]
      · simp [hk, h]

theorem streamBatchLoop_lookup_isSome_of_mem (cfg : KafkaConfig)
    (behs : Nat → BrokerBehavior) (uuids : Nat → String) (now : DateTime)
    (batch : List JsonObj) : ∀ (st : ProducerState) (acc : ResultMap)
    (raw : JsonObj), raw ∈ batch →
    (((streamBatchLoop cfg behs uuids now batch st acc).1).lookup
      (recordKey raw now)).isSome = true := by
  induction batch with
  | nil => intro st acc raw h; cases h
  | cons raw' rest ih =>
    intro st acc raw h
    rcases List.mem_cons.mp h with heq | hmem
    · subst heq
      cases hv : GroupDetails.validate raw now with
      | ok gd =>
        rw [streamBatchLoop_cons_ok cfg behs uuids now raw rest st acc hv]
        apply streamBatchLoop_lookup_isSome_mono
        rw [recordKey_ok hv, ResultMap.lookup_upsert]
        simp
      | error e =>
        rw [streamBatchLoop_cons_error cfg behs uuids now raw rest st acc hv]
        apply streamBatchLoop_lookup_isSome_mono
        rw [recordKey_error hv, ResultMap.lookup_upsert]
        simp
    · cases hv : GroupDetails.validate raw' now with
      | ok gd =>
        rw [streamBatchLoop_cons_ok cfg behs uuids now raw' rest st acc hv]
        exact ih _ _ _ hmem
      | error e =>
        rw [streamBatchLoop_cons_error cfg behs uuids now raw' rest st acc hv]
        exact ih _ _ _ hmem

theorem streamBatchLoop_length (cfg : KafkaConfig)
    (behs : Nat → BrokerBehavior) (uuids : Nat → String) (now : DateTime)
    (batch : List JsonObj) : ∀ (st : ProducerState) (acc : ResultMap),
    (batch.map (fun raw => recordKey raw now)).Nodup →
    (∀ raw ∈ batch, acc.lookup (recordKey raw now) = none) →
    ((streamBatchLoop cfg behs uuids now batch st acc).1).length =
      acc.length + batch.length := by
  induction batch with
  | nil => intro st acc _ _; rfl
  | cons raw rest ih =>
    intro st acc hnd hfresh
    have hnotmem : recordKey raw now ∉ rest.map (fun r => recordKey r now) :=
      (List.nodup_cons.mp (by simpa using hnd)).1
    have hndrest : (rest.map (fun r => recordKey r now)).Nodup :=
      (List.nodup_cons.mp (by simpa using hnd)).2
    have hfr : acc.lookup (recordKey raw now) = none :=
      hfresh raw (List.mem_cons_self raw rest)
    have hne : ∀ r ∈ rest, recordKey r now ≠ recordKey raw now := by
      intro r hr h
      exact hnotmem (h ▸ List.mem_map_of_mem (fun r => recordKey r now) hr)
    cases hv : GroupDetails.validate raw now with
    | ok gd =>
      rw [streamBatchLoop_cons_ok cfg behs uuids now raw rest st acc hv]
      rw [ih _ _ hndrest ?_]
      · rw [ResultMap.length_upsert_of_lookup_none acc _ _
          (by rw [← recordKey_ok hv]; exact hfr)]
        rw [List.length_cons]
        omega
      · intro r hr
        rw [ResultMap.lookup_upsert,
          if_neg (by rw [← recordKey_ok hv]; exact hne r hr)]
        exact hfresh r (List.mem_cons_of_mem _ hr)
    | error e =>
      rw [streamBatchLoop_cons_error cfg behs uuids now raw rest st acc hv]
      rw [ih _ _ hndrest ?_]
      · rw [ResultMap.length_upsert_of_lookup_none acc _ _
          (by rw [← recordKey_error hv]; exact hfr)]
        rw [List.length_cons]
        omega
      · intro r hr
        rw [ResultMap.lookup_upsert,
          if_neg (by rw [← recordKey_error hv]; exact hne r hr)]
        exact hfresh r (List.mem_cons_of_mem _ hr)

theorem streamBatchLoop_invalid_false (cfg : KafkaConfig)
    (behs : Nat → BrokerBehavior) (uuids : Nat → String) (now : DateTime)
    (batch : List JsonObj) : ∀ (st : ProducerState) (acc : ResultMap),
    (batch.map (fun raw => recordKey raw now)).Nodup →
    ∀ raw ∈ batch, validGroup raw now = false →
    ((streamBatchLoop cfg behs uuids now batch st acc).1).lookup
      (recordKey raw now) = some false := by
  induction batch with
  | nil => intro st acc _ raw h; cases h
  | cons raw' rest ih =>
    intro st acc hnd raw hmem hinv
    have hnotmem : recordKey raw' now ∉ rest.map (fun r => recordKey r now) :=
      (List.nodup_cons.mp (by simpa using hnd)).1
    have hndrest : (rest.map (fun r => recordKey r now)).Nodup :=
      (List.nodup_cons.mp (by simpa using hnd)).2
    rcases List.mem_cons.mp hmem with heq | hmem'
    · subst heq
      obtain ⟨e, hv⟩ := validate_error_of_validGroup_false hinv
      rw [streamBatchLoop_cons_error cfg behs uuids now raw rest st acc hv]
      rw [streamBatchLoop_lookup_not_mem cfg behs uuids now rest _ _ _ ?_]
      · rw [recordKey_error hv, ResultMap.lookup_upsert, if_pos rfl]
      · intro r hr h
        exact hnotmem (h ▸ List.mem_map_of_mem (fun r => recordKey r now) hr)
    · cases hv : GroupDetails.validate raw' now with
      | ok gd =>
        rw [streamBatchLoop_cons_ok cfg behs uuids now raw' rest st acc hv]
        exact ih _ _ hndrest raw hmem' hinv
      | error e =>
        rw [streamBatchLoop_cons_error cfg behs uuids now raw' rest st acc hv]
        exact ih _ _ hndrest raw hmem' hinv

theorem streamBatchLoop_calls (cfg : KafkaConfig)
    (behs : Nat → BrokerBehavior) (uuids : Nat → String) (now : DateTime)
    (batch : List JsonObj) : ∀ (st : ProducerState) (acc : ResultMap),
    ((streamBatchLoop cfg behs uuids now batch st acc).2).calls.length =
      st.calls.length +
        (batch.filter (fun raw => validGroup raw now)).length := by
  induction batch with
  | nil => intro st acc; simp [streamBatchLoop]
  | cons raw rest ih =>
    intro st acc
    cases hv : GroupDetails.validate raw now with
    | ok gd =>
      rw [streamBatchLoop_cons_ok cfg behs uuids now raw rest st acc hv, ih]
      rw [produce_group_message_calls]
      rw [List.filter_cons_of_pos (by simpa using validGroup_of_ok hv)]
      simp
      omega
    | error e =>
      rw [streamBatchLoop_cons_error cfg behs uuids now raw rest st acc hv, ih]
      rw [List.filter_cons_of_neg (by simpa using validGroup_of_error hv)]

theorem objToStrMap_strMapJson (l : List (String × String)) :
    objToStrMap (strMapJson l) = .ok l := by
  induction l with
  | nil => rfl
  | cons kv tl ih =>
    obtain ⟨k, v⟩ := kv
    simp [strMapJson, objToStrMap, ih, Except.map]

theorem member_validate_roundtrip (m : GroupMember) :
    GroupMember.validate (JsonObj.ofList
      [("member_id", .str m.member_id), ("first_name", .str m.first_name),
       ("last_name", .str m.last_name), ("email", .str m.email),
       ("phone", optStrJson m.phone),
       ("date_of_birth", optStrJson m.date_of_birth),
       ("address", optStrMapJson m.address),
       ("enrollment_date", optStrJson m.enrollment_date),
       ("status", .str m.status)]) = .ok m := by
  obtain ⟨mi, fn, ln, em, ph, dob, ad, en, stt⟩ := m
  cases ph <;> cases dob <;> cases ad <;> cases en <;>
    simp [GroupMember.validate, getReqStr, getOptStr, getOptStrMap,
      getDefStr, JsonObj.ofList, JsonObj.lookup, Except.bind, optStrJson,
      optStrMapJson, objToStrMap_strMapJson, Except.map]

theorem validateMembers_roundtrip (ms : List GroupMember) :
    validateMembers (membersJson ms) = .ok ms := by
  induction ms with
  | nil => rfl
  | cons m tl ih =>
    simp [membersJson, GroupMember.toJson, validateMembers,
      member_validate_roundtrip, ih, Except.bind]

theorem from_to_kafka_message (g : GroupDetails) (now' : DateTime) :
    GroupDetails.from_kafka_message g.to_kafka_message now' = .ok g := by
  obtain ⟨gid, gn, gt, eff, term, stt, ms, ca, ua, md⟩ := g
  cases term <;> cases md <;>
    simp [GroupDetails.to_kafka_message, GroupDetails.from_kafka_message,
      GroupDetails.validate, getReqStr, getOptStr, getDefStr, getOptObj,
      getMembersField, JsonObj.ofList, JsonObj.lookup, Except.bind,
      optStrJson, optObjJson, validateMembers_roundtrip, Except.map]

theorem streamBatchLoop_nil (cfg : KafkaConfig)
    (behs : Nat → BrokerBehavior) (uuids : Nat → String) (now : DateTime)
    (st : ProducerState) (acc : ResultMap) :
    streamBatchLoop cfg behs uuids now [] st acc = (acc, st) := rfl

theorem streamBatchLoop_cons (cfg : KafkaConfig)
    (behs : Nat → BrokerBehavior) (uuids : Nat → String) (now : DateTime)
    (raw : JsonObj) (rest : List JsonObj) (st : ProducerState)
    (acc : ResultMap) :
    streamBatchLoop cfg behs uuids now (raw :: rest) st acc =
      streamBatchLoop cfg behs uuids now rest
        (batchStepState cfg behs uuids now raw st)
        (acc.upsert (recordKey raw now)
          (batchStepVal cfg behs uuids now raw st)) := by
  cases hv : GroupDetails.validate raw now with
  | ok gd =>
    rw [streamBatchLoop_cons_ok cfg behs uuids now raw rest st acc hv]
    rw [recordKey_ok hv]
    simp [batchStepVal, batchStepState, hv]
  | error e =>
    rw [streamBatchLoop_cons_error cfg behs uuids now raw rest st acc hv]
    rw [recordKey_error hv]
    simp [batchStepVal, batchStepState, hv]

theorem lookup_isSome_of_getReqStr_ok {o : JsonObj} {k s : String}
    (h : getReqStr o k = .ok s) : (o.lookup k).isSome = true := by
  unfold getReqStr at h
  cases hl : o.lookup k with
  | none => rw [hl] at h; cases h
  | some v => rfl

theorem lookup_isSome_of_getMembersField_ok {o : JsonObj}
    {ms : List GroupMember} (h : getMembersField o = .ok ms) :
    (o.lookup "members").isSome = true := by
  unfold getMembersField at h
  cases hl : o.lookup "members" with
  | none => rw [hl] at h; cases h
  | some v => rfl

/-! ## Claim theorems -/

/-- C5: topic resolution is total and exclusive on the two environments —
a configuration in the dev environment always resolves `current_topic` to
its configured dev topic, one in the qa environment always resolves to
its configured qa topic, and the `Literal["dev","qa"]` validation accepts
no environment value other than `"dev"` and `"qa"`. -/
theorem topic_resolution_total_exclusive :
    (∀ c : KafkaConfig, c.environment = Env.dev →
      c.current_topic = c.dev_topic) ∧
    (∀ c : KafkaConfig, c.environment = Env.qa →
      c.current_topic = c.qa_topic) ∧
    (∀ s : String,
      (parseEnvironment s).isSome = true ↔ s = "dev" ∨ s = "qa") ∧
    parseEnvironment "dev" = some Env.dev ∧
    parseEnvironment "qa" = some Env.qa := by
  refine ⟨?_, ?_, ?_, rfl, rfl⟩
  · intro c h; simp [KafkaConfig.current_topic, h]
  · intro c h; simp [KafkaConfig.current_topic, h]
  · intro s
    by_cases h1 : s = "dev"
    · simp [parseEnvironment, h1]
    · by_cases h2 : s = "qa" <;> simp [parseEnvironment, h1, h2]

/-- C5 witness: the dev fixture resolves to its dev topic, and the
environment string "prod" is not accepted. -/
theorem topic_resolution_total_exclusive_witness :
    cfg0.current_topic = "topic.dev" ∧
    ((parseEnvironment "prod").isSome = true → False) := by
  constructor
  · rw [topic_resolution_total_exclusive.1 cfg0 rfl]; rfl
  · intro h
    rcases (topic_resolution_total_exclusive.2.2.1 "prod").mp h with h' | h' <;>
      exact absurd h' (by decide)

/-- C6 counterexample: constructing the configuration with no supplied
settings at all — in particular neither an API key nor an API secret —
succeeds with the hard-coded default credentials instead of failing. -/
theorem config_absent_credentials_ok :
    mkKafkaConfig none none none none none none =
      Except.ok
        { bootstrap_servers :=
            "lkc-g1r211.dom8wd1r3wx.us-east4.gcp.confluent.cloud:9092",
          api_key := "SY367CYSVPCVDNXJ",
          api_secret :=
            "Zyqm1BIID+G8/426QP6FNIYw/bl6kgolKbpnlh6nyZ9c+JcC/Qnt9bGXQDsb/wvQ",
          environment := Env.dev,
          dev_topic := "gcp.pss.groupfl.mypbmcaa.dev.groupdetails",
          qa_topic := "gcp.pss.groupfl.mypbmcaa.qa.groupdetails" } := rfl

/-- C6 (amended): construction does not fail when the credentials are
absent — the hard-coded `Field` defaults fill them in (construction with
no environment setting always succeeds), and every provider constructed
without supplied credentials carries the nonempty default API key and
secret. -/
theorem config_construction_defaults (bs env dt qt : Option String) :
    (∃ c, mkKafkaConfig bs none none none dt qt = .ok c) ∧
    (∀ c, mkKafkaConfig bs none none env dt qt = .ok c →
      c.api_key = "SY367CYSVPCVDNXJ" ∧
      c.api_secret =
        "Zyqm1BIID+G8/426QP6FNIYw/bl6kgolKbpnlh6nyZ9c+JcC/Qnt9bGXQDsb/wvQ" ∧
      c.api_key ≠ "" ∧ c.api_secret ≠ "") := by
  constructor
  · exact ⟨_, rfl⟩
  · intro c h
    cases env with
    | none =>
      simp only [mkKafkaConfig, Except.ok.injEq] at h
      have hk : c.api_key = "SY367CYSVPCVDNXJ" := by rw [← h]; rfl
      have hs : c.api_secret =
          "Zyqm1BIID+G8/426QP6FNIYw/bl6kgolKbpnlh6nyZ9c+JcC/Qnt9bGXQDsb/wvQ" := by
        rw [← h]; rfl
      exact ⟨hk, hs, by rw [hk]; decide, by rw [hs]; decide⟩
    | some s =>
      simp only [mkKafkaConfig] at h
      cases hp : parseEnvironment s with
      | none => rw [hp] at h; cases h
      | some e =>
        rw [hp] at h
        simp only [Except.ok.injEq] at h
        have hk : c.api_key = "SY367CYSVPCVDNXJ" := by rw [← h]; rfl
        have hs : c.api_secret =
            "Zyqm1BIID+G8/426QP6FNIYw/bl6kgolKbpnlh6nyZ9c+JcC/Qnt9bGXQDsb/wvQ" := by
          rw [← h]; rfl
        exact ⟨hk, hs, by rw [hk]; decide, by rw [hs]; decide⟩

/-- C6 witness: with the environment setting "qa" and no credentials,
construction succeeds and yields the default credentials. -/
theorem config_construction_defaults_witness :
    (∃ c, mkKafkaConfig none none none none none none = .ok c) ∧
    ((mkKafkaConfig none none none (some "qa") none none).isOk = true) ∧
    (∀ c, mkKafkaConfig none none none (some "qa") none none = .ok c →
      c.api_key = "SY367CYSVPCVDNXJ") := by
  refine ⟨(config_construction_defaults none none none none).1, by decide,
    fun c h => ((config_construction_defaults none (some "qa") none
      none).2 c h).1⟩

/-- C7: deserializing the serialized wire payload of any `GroupDetails`
(`from_kafka_message` after `to_kafka_message`) reproduces a
`GroupDetails` equal to the original on every non-timestamp field. -/
theorem kafka_message_roundtrip (g : GroupDetails) (now' : DateTime) :
    ∃ g' : GroupDetails,
      GroupDetails.from_kafka_message g.to_kafka_message now' = .ok g' ∧
      g'.group_id = g.group_id ∧ g'.group_name = g.group_name ∧
      g'.group_type = g.group_type ∧
      g'.effective_date = g.effective_date ∧
      g'.termination_date = g.termination_date ∧ g'.status = g.status ∧
      g'.members = g.members ∧ g'.metadata = g.metadata :=
  ⟨g, from_to_kafka_message g now', rfl, rfl, rfl, rfl, rfl, rfl, rfl, rfl⟩

/-- C1 counterexample: a raw record that passes validation is streamed
against a broker that raises no exception but actively rejects the
delivery (the rejection is reported to the delivery callback, as the
final state's report log shows) — yet `stream_group_data` returns `true`,
because the returned boolean only reflects that enqueue and flush raised
no exception. -/
theorem stream_true_despite_rejection :
    validGroup rawGroup0 now0 = true ∧
    (behsRej 0).outcome = DeliveryOutcome.rejected ∧
    (GroupLoadStreamer.stream_group_data cfg0 behsRej uuids0 now0 rawGroup0
      initProducerState).1 = true ∧
    (GroupLoadStreamer.stream_group_data cfg0 behsRej uuids0 now0 rawGroup0
      initProducerState).2.reports = [DeliveryOutcome.rejected] :=
  ⟨by decide, rfl, by decide, by decide⟩

/-- C1 (amended): for every raw record and broker behaviour,
`stream_group_data` returns `true` iff validation succeeds and neither
the enqueue nor the flush raises an exception; the delivery outcome the
broker reports to the delivery callback — acknowledgment, timeout, or
rejection — has no effect on the returned boolean. -/
theorem stream_group_data_result_iff (cfg : KafkaConfig)
    (behs : Nat → BrokerBehavior) (uuids : Nat → String) (now : DateTime)
    (raw : JsonObj) (st : ProducerState) :
    (GroupLoadStreamer.stream_group_data cfg behs uuids now raw st).1 = true
      ↔ (validGroup raw now = true ∧
         (behs st.calls.length).produceRaises = false ∧
         (behs st.calls.length).flushRaises = false) := by
  cases hv : GroupDetails.validate raw now with
  | ok gd =>
    simp [GroupLoadStreamer.stream_group_data, hv,
      produce_group_message_fst, validGroup_of_ok hv]
  | error e =>
    simp [GroupLoadStreamer.stream_group_data, hv, validGroup_of_error hv]

/-- C1 witness: the amended equivalence instantiated at the valid fixture
under the rejecting-but-non-raising broker. -/
theorem stream_group_data_result_iff_witness :
    (GroupLoadStreamer.stream_group_data cfg0 behsRej uuids0 now0 rawGroup0
      initProducerState).1 = true :=
  (stream_group_data_result_iff cfg0 behsRej uuids0 now0 rawGroup0
    initProducerState).mpr ⟨by decide, rfl, rfl⟩

/-- C2 counterexample: after `close` has been called on a fresh producer,
a publish call still reaches the broker client (it receives one produce
call) and returns `true` — it does not fail with any closed-state
error. -/
theorem publish_after_close_succeeds :
    (GroupLoadKafkaProducer.produce_group_message cfg0 (behsOk 0) "uuid-0"
      now0 gd0 none
      (GroupLoadKafkaProducer.close (behsOk 0) initProducerState)).1 = true ∧
    (GroupLoadKafkaProducer.produce_group_message cfg0 (behsOk 0) "uuid-0"
      now0 gd0 none
      (GroupLoadKafkaProducer.close (behsOk 0)
        initProducerState)).2.calls.length = 1 :=
  ⟨by decide, by decide⟩

/-- C2 (amended): `close` only flushes the pending queue — it is
idempotent and introduces no terminal state: a publish call issued after
`close` returns exactly what it would return without the preceding
`close`, and it still attempts broker I/O (the client receives one more
produce call); no closed-state error exists. -/
theorem close_not_terminal (cfg : KafkaConfig) (beh bc : BrokerBehavior)
    (u : String) (now : DateTime) (gd : GroupDetails) (mid : Option String)
    (st : ProducerState) :
    GroupLoadKafkaProducer.close bc (GroupLoadKafkaProducer.close bc st) =
      GroupLoadKafkaProducer.close bc st ∧
    (GroupLoadKafkaProducer.produce_group_message cfg beh u now gd mid
      (GroupLoadKafkaProducer.close bc st)).1 =
      (GroupLoadKafkaProducer.produce_group_message cfg beh u now gd mid
        st).1 ∧
    (GroupLoadKafkaProducer.produce_group_message cfg beh u now gd mid
      (GroupLoadKafkaProducer.close bc st)).2.calls.length =
      st.calls.length + 1 := by
  refine ⟨?_, ?_, ?_⟩
  · simp [GroupLoadKafkaProducer.close]
  · rw [produce_group_message_fst, produce_group_message_fst]
  · rw [produce_group_message_calls]
    simp [GroupLoadKafkaProducer.close]

/-- C8: every produce call the broker client receives carries as key the
UTF-8 bytes of the envelope's message identifier and as value the UTF-8
bytes of the rendered JSON serialization of the envelope — an envelope
whose message type tag is the constant "group_load", whose timestamp is
the generation time, whose environment is the configured target
environment, whose payload is the given `GroupDetails`, and whose message
identifier is the freshly generated UUID whenever none was supplied. -/
theorem produce_message_shape (cfg : KafkaConfig) (beh : BrokerBehavior)
    (u : String) (now : DateTime) (gd : GroupDetails) (mid : Option String)
    (st : ProducerState) :
    ∃ mid' : String,
      (GroupLoadKafkaProducer.produce_group_message cfg beh u now gd mid
        st).2.calls =
        st.calls ++
          [{ topic := cfg.current_topic,
             key := utf8Bytes ((GroupLoadMessage.make now
               cfg.environment.value gd mid').message_id),
             value := utf8Bytes (Json.render ((GroupLoadMessage.make now
               cfg.environment.value gd mid').to_kafka_message)) }] ∧
      (GroupLoadMessage.make now cfg.environment.value gd
        mid').message_type = "group_load" ∧
      (GroupLoadMessage.make now cfg.environment.value gd
        mid').timestamp = now ∧
      (GroupLoadMessage.make now cfg.environment.value gd
        mid').environment = cfg.environment.value ∧
      (GroupLoadMessage.make now cfg.environment.value gd
        mid').group_details = gd ∧
      (mid = none → mid' = u) ∧
      (∀ s, mid = some s → s ≠ "" → mid' = s) := by
  refine ⟨resolveMessageId mid u,
    produce_group_message_calls cfg beh u now gd mid st,
    rfl, rfl, rfl, rfl, ?_, ?_⟩
  · intro h; subst h; rfl
  · intro s h hne; subst h; simp [resolveMessageId, hne]

/-- C8 witness: the shape theorem instantiated at the fixture with no
message id supplied — exactly one call is received. -/
theorem produce_message_shape_witness :
    (GroupLoadKafkaProducer.produce_group_message cfg0 (behsOk 0) "uuid-0"
      now0 gd0 none initProducerState).2.calls.length = 1 := by
  obtain ⟨mid', hcalls, -, -, -, -, -, -⟩ :=
    produce_message_shape cfg0 (behsOk 0) "uuid-0" now0 gd0 none
      initProducerState
  rw [hcalls]
  rfl

/-- C3 counterexample: a batch of two records that both fail validation
with unreadable identifiers collapses to the single "unknown" key — the
result mapping has one entry, not the two entries the claim requires for
a batch of N = 2 records. -/
theorem stream_batch_entries_collapse :
    (GroupLoadStreamer.stream_batch_data cfg0 behsOk uuids0 now0
      [rawBad0, rawBad0] initProducerState).1 =
      [(Json.str "unknown", false)] ∧
    ¬ ((GroupLoadStreamer.stream_batch_data cfg0 behsOk uuids0 now0
      [rawBad0, rawBad0] initProducerState).1.length = 2) :=
  ⟨by decide, by decide⟩

/-- C3 (amended): when the per-record result keys are pairwise distinct,
a batch of N records of which M fail validation yields a result mapping
with exactly N entries, each of the M invalid records maps to `false`,
and the broker client receives exactly N − M produce calls (a validation
failure never reaches the producer); with duplicate keys the mapping can
have fewer than N entries. -/
theorem stream_batch_counts (cfg : KafkaConfig)
    (behs : Nat → BrokerBehavior) (uuids : Nat → String) (now : DateTime)
    (batch : List JsonObj) (st : ProducerState)
    (hnd : (batch.map (fun raw => recordKey raw now)).Nodup) :
    (GroupLoadStreamer.stream_batch_data cfg behs uuids now batch
      st).1.length = batch.length ∧
    (∀ raw ∈ batch, validGroup raw now = false →
      (GroupLoadStreamer.stream_batch_data cfg behs uuids now batch
        st).1.lookup (recordKey raw now) = some false) ∧
    (GroupLoadStreamer.stream_batch_data cfg behs uuids now batch
      st).2.calls.length =
      st.calls.length +
        (batch.filter (fun raw => validGroup raw now)).length := by
  refine ⟨?_, ?_, ?_⟩
  · have h := streamBatchLoop_length cfg behs uuids now batch st [] hnd
      (fun r _ => rfl)
    simpa [GroupLoadStreamer.stream_batch_data] using h
  · intro raw hmem hinv
    exact streamBatchLoop_invalid_false cfg behs uuids now batch st [] hnd
      raw hmem hinv
  · exact streamBatchLoop_calls cfg behs uuids now batch st []

/-- C3 witness: a two-record batch with distinct keys, one valid and one
invalid record — two entries, the invalid one `false`, one produce
call. -/
theorem stream_batch_counts_witness :
    (GroupLoadStreamer.stream_batch_data cfg0 behsOk uuids0 now0
      [rawGroup0, rawBad1] initProducerState).1.length = 2 ∧
    (GroupLoadStreamer.stream_batch_data cfg0 behsOk uuids0 now0
      [rawGroup0, rawBad1] initProducerState).1.lookup
      (recordKey rawBad1 now0) = some false ∧
    (GroupLoadStreamer.stream_batch_data cfg0 behsOk uuids0 now0
      [rawGroup0, rawBad1] initProducerState).2.calls.length = 1 := by
  have h := stream_batch_counts cfg0 behsOk uuids0 now0
    [rawGroup0, rawBad1] initProducerState (by decide)
  exact ⟨h.1, h.2.1 rawBad1 (by simp) (by decide), by decide⟩

/-- C4: `stream_batch_data` processes records independently and in input
order — (1) processing a concatenated batch runs the first part and then
continues with the second from the state the first left behind, so no
record's failure aborts or skips later records; (2) a record that fails
validation is resolved locally into a `false` entry under its key without
touching the producer state, and the loop continues; (3) a record that
validates is recorded under its own group identifier with exactly the
boolean its publish attempt returned, the loop continuing from the
resulting producer state; (4) in particular a validated record whose
publish attempt fails is converted into a `false` entry under its group
identifier rather than propagating, and the loop continues; (5) every
record of the batch ends up with an entry under its key in the returned
mapping; (6) the key is the record's own group identifier when validation
succeeds; (7) the key is the sentinel "unknown" when validation fails and
the raw record's identifier cannot be read. -/
theorem stream_batch_isolation (cfg : KafkaConfig)
    (behs : Nat → BrokerBehavior) (uuids : Nat → String) (now : DateTime) :
    (∀ (b1 b2 : List JsonObj) (st : ProducerState) (acc : ResultMap),
      streamBatchLoop cfg behs uuids now (b1 ++ b2) st acc =
        streamBatchLoop cfg behs uuids now b2
          (streamBatchLoop cfg behs uuids now b1 st acc).2
          (streamBatchLoop cfg behs uuids now b1 st acc).1) ∧
    (∀ (raw : JsonObj) (rest : List JsonObj) (st : ProducerState)
      (acc : ResultMap) (e : String),
      GroupDetails.validate raw now = .error e →
      streamBatchLoop cfg behs uuids now (raw :: rest) st acc =
        streamBatchLoop cfg behs uuids now rest st
          (acc.upsert ((raw.lookup "group_id").getD (.str "unknown"))
            false)) ∧
    (∀ (raw : JsonObj) (rest : List JsonObj) (st : ProducerState)
      (acc : ResultMap) (gd : GroupDetails),
      GroupDetails.validate raw now = .ok gd →
      streamBatchLoop cfg behs uuids now (raw :: rest) st acc =
        streamBatchLoop cfg behs uuids now rest
          (GroupLoadKafkaProducer.produce_group_message cfg
            (behs st.calls.length) (uuids st.calls.length) now gd none
            st).2
          (acc.upsert (.str gd.group_id)
            (GroupLoadKafkaProducer.produce_group_message cfg
              (behs st.calls.length) (uuids st.calls.length) now gd none
              st).1)) ∧
    (∀ (raw : JsonObj) (rest : List JsonObj) (st : ProducerState)
      (acc : ResultMap) (gd : GroupDetails),
      GroupDetails.validate raw now = .ok gd →
      (GroupLoadKafkaProducer.produce_group_message cfg
        (behs st.calls.length) (uuids st.calls.length) now gd none
        st).1 = false →
      streamBatchLoop cfg behs uuids now (raw :: rest) st acc =
        streamBatchLoop cfg behs uuids now rest
          (GroupLoadKafkaProducer.produce_group_message cfg
            (behs st.calls.length) (uuids st.calls.length) now gd none
            st).2
          (acc.upsert (.str gd.group_id) false)) ∧
    (∀ (batch : List JsonObj) (st : ProducerState) (raw : JsonObj),
      raw ∈ batch →
      ((GroupLoadStreamer.stream_batch_data cfg behs uuids now batch
        st).1.lookup (recordKey raw now)).isSome = true) ∧
    (∀ (raw : JsonObj) (gd : GroupDetails),
      GroupDetails.validate raw now = .ok gd →
      recordKey raw now = .str gd.group_id) ∧
    (∀ (raw : JsonObj) (e : String),
      GroupDetails.validate raw now = .error e →
      raw.lookup "group_id" = none → recordKey raw now = .str "unknown") := by
  refine ⟨fun b1 b2 => streamBatchLoop_append cfg behs uuids now b1 b2,
    fun raw rest st acc e he =>
      streamBatchLoop_cons_error cfg behs uuids now raw rest st acc he,
    fun raw rest st acc gd hv =>
      streamBatchLoop_cons_ok cfg behs uuids now raw rest st acc hv,
    fun raw rest st acc gd hv hpf => ?_,
    fun batch st raw hmem =>
      streamBatchLoop_lookup_isSome_of_mem cfg behs uuids now batch st []
        raw hmem,
    fun raw gd h => recordKey_ok h,
    fun raw e h hnone => ?_⟩
  · rw [streamBatchLoop_cons_ok cfg behs uuids now raw rest st acc hv, hpf]
  · rw [recordKey_error h, hnone]
    rfl

/-- C4 witness: in a three-record batch whose middle record is invalid
with an unreadable identifier, that record still receives an entry (under
the "unknown" key) and the surrounding records are processed; and against
a broker whose flush raises, a valid record's publish failure is recorded
as `false` under the record's own group identifier. -/
theorem stream_batch_isolation_witness :
    ((GroupLoadStreamer.stream_batch_data cfg0 behsOk uuids0 now0
      [rawGroup0, rawBad0, rawGroup1] initProducerState).1.lookup
      (recordKey rawBad0 now0)).isSome = true ∧
    recordKey rawBad0 now0 = .str "unknown" ∧
    ((GroupLoadStreamer.stream_batch_data cfg0 behsOk uuids0 now0
      [rawGroup0, rawBad0, rawGroup1] initProducerState).1.lookup
      (recordKey rawGroup1 now0)).isSome = true ∧
    (GroupLoadStreamer.stream_batch_data cfg0 behsFail uuids0 now0
      [rawGroup0] initProducerState).1.lookup (.str "GRP_12345") =
      some false := by
  refine ⟨(stream_batch_isolation cfg0 behsOk uuids0 now0).2.2.2.2.1
      [rawGroup0, rawBad0, rawGroup1] initProducerState rawBad0 (by simp),
    (stream_batch_isolation cfg0 behsOk uuids0 now0).2.2.2.2.2.2 rawBad0
      "group_id: field required" rfl rfl,
    (stream_batch_isolation cfg0 behsOk uuids0 now0).2.2.2.2.1
      [rawGroup0, rawBad0, rawGroup1] initProducerState rawGroup1
      (by simp), ?_⟩
  have hstep := (stream_batch_isolation cfg0 behsFail uuids0 now0).2.2.2.1
    rawGroup0 [] initProducerState [] gd0 rfl (by decide)
  rw [GroupLoadStreamer.stream_batch_data, hstep, streamBatchLoop_nil]
  decide

/-- C9: when two records in a batch yield the same result key, the later
record's outcome overwrites the earlier entry: a two-record batch with
equal keys produces a mapping with a single entry — fewer entries than
input records — whose value at the key is exactly what processing the
second record alone from the intermediate state yields. -/
theorem stream_batch_overwrite (cfg : KafkaConfig)
    (behs : Nat → BrokerBehavior) (uuids : Nat → String) (now : DateTime)
    (r1 r2 : JsonObj) (st : ProducerState)
    (h : recordKey r1 now = recordKey r2 now) :
    (GroupLoadStreamer.stream_batch_data cfg behs uuids now [r1, r2]
      st).1.length = 1 ∧
    (GroupLoadStreamer.stream_batch_data cfg behs uuids now [r1, r2]
      st).1.length < ([r1, r2] : List JsonObj).length ∧
    (GroupLoadStreamer.stream_batch_data cfg behs uuids now [r1, r2]
      st).1.lookup (recordKey r2 now) =
      (GroupLoadStreamer.stream_batch_data cfg behs uuids now [r2]
        (GroupLoadStreamer.stream_batch_data cfg behs uuids now [r1]
          st).2).1.lookup (recordKey r2 now) := by
  have hds : GroupLoadStreamer.stream_batch_data cfg behs uuids now [r1, r2]
      st =
      streamBatchLoop cfg behs uuids now [r2]
        (batchStepState cfg behs uuids now r1 st)
        (ResultMap.upsert [] (recordKey r1 now)
          (batchStepVal cfg behs uuids now r1 st)) := by
    rw [GroupLoadStreamer.stream_batch_data,
      streamBatchLoop_cons cfg behs uuids now r1 [r2] st []]
  have h1 : GroupLoadStreamer.stream_batch_data cfg behs uuids now [r1] st =
      ([(recordKey r1 now, batchStepVal cfg behs uuids now r1 st)],
        batchStepState cfg behs uuids now r1 st) := by
    rw [GroupLoadStreamer.stream_batch_data,
      streamBatchLoop_cons cfg behs uuids now r1 [] st [],
      streamBatchLoop_nil]
    rfl
  rw [hds, streamBatchLoop_cons cfg behs uuids now r2 [] _ _,
    streamBatchLoop_nil, h1]
  rw [GroupLoadStreamer.stream_batch_data,
    streamBatchLoop_cons cfg behs uuids now r2 [] _ [],
    streamBatchLoop_nil]
  rw [h]
  simp [ResultMap.upsert, ResultMap.lookup]

/-- C9 witness: an invalid record whose readable identifier "GRP_X"
collides with a later valid record of the same identifier — the mapping
keeps one entry, the later (successful) outcome. -/
theorem stream_batch_overwrite_witness :
    (GroupLoadStreamer.stream_batch_data cfg0 behsOk uuids0 now0
      [rawBad1, rawGroupX] initProducerState).1.length = 1 ∧
    (GroupLoadStreamer.stream_batch_data cfg0 behsOk uuids0 now0
      [rawBad1, rawGroupX] initProducerState).1.lookup
      (recordKey rawGroupX now0) = some true := by
  have h := stream_batch_overwrite cfg0 behsOk uuids0 now0 rawBad1
    rawGroupX initProducerState (by decide)
  refine ⟨h.1, ?_⟩
  rw [h.2.2]
  decide

/-- C10: validation does not require a status field — a raw member or
group record without one still validates, `status` defaulting to
"active" and the group timestamps defaulting to the construction time —
and exactly `member_id`/`first_name`/`last_name`/`email` (members) and
`group_id`/`group_name`/`group_type`/`effective_date`/`members` (groups)
are required: records carrying just those fields validate, and validation
success implies their presence. -/
theorem validation_defaults_and_required (now : DateTime) :
    (∀ (o : JsonObj) (mi fn ln em : String),
      o.lookup "member_id" = some (.str mi) →
      o.lookup "first_name" = some (.str fn) →
      o.lookup "last_name" = some (.str ln) →
      o.lookup "email" = some (.str em) →
      o.lookup "phone" = none → o.lookup "date_of_birth" = none →
      o.lookup "address" = none → o.lookup "enrollment_date" = none →
      o.lookup "status" = none →
      GroupMember.validate o = .ok
        { member_id := mi, first_name := fn, last_name := ln, email := em,
          phone := none, date_of_birth := none, address := none,
          enrollment_date := none, status := "active" }) ∧
    (∀ (o : JsonObj) (gid gn gt eff : String) (a : JsonArr)
      (ms : List GroupMember),
      o.lookup "group_id" = some (.str gid) →
      o.lookup "group_name" = some (.str gn) →
      o.lookup "group_type" = some (.str gt) →
      o.lookup "effective_date" = some (.str eff) →
      o.lookup "members" = some (.arr a) → validateMembers a = .ok ms →
      o.lookup "termination_date" = none → o.lookup "status" = none →
      o.lookup "created_at" = none → o.lookup "updated_at" = none →
      o.lookup "metadata" = none →
      GroupDetails.validate o now = .ok
        { group_id := gid, group_name := gn, group_type := gt,
          effective_date := eff, termination_date := none,
          status := "active", members := ms, created_at := now,
          updated_at := now, metadata := none }) ∧
    (∀ (o : JsonObj) (m : GroupMember), GroupMember.validate o = .ok m →
      (o.lookup "member_id").isSome = true ∧
      (o.lookup "first_name").isSome = true ∧
      (o.lookup "last_name").isSome = true ∧
      (o.lookup "email").isSome = true) ∧
    (∀ (o : JsonObj) (g : GroupDetails),
      GroupDetails.validate o now = .ok g →
      (o.lookup "group_id").isSome = true ∧
      (o.lookup "group_name").isSome = true ∧
      (o.lookup "group_type").isSome = true ∧
      (o.lookup "effective_date").isSome = true ∧
      (o.lookup "members").isSome = true) := by
  refine ⟨?_, ?_, ?_, ?_⟩
  · intro o mi fn ln em h1 h2 h3 h4 h5 h6 h7 h8 h9
    simp [GroupMember.validate, getReqStr, getOptStr, getOptStrMap,
      getDefStr, h1, h2, h3, h4, h5, h6, h7, h8, h9, Except.bind]
  · intro o gid gn gt eff a ms h1 h2 h3 h4 h5 h6 h7 h8 h9 h10 h11
    simp [GroupDetails.validate, getReqStr, getOptStr, getDefStr,
      getOptObj, getMembersField, h1, h2, h3, h4, h5, h6, h7, h8, h9,
      h10, h11, Except.bind]
  · intro o m h
    unfold GroupMember.validate at h
    obtain ⟨a1, hg1, h⟩ := except_bind_ok_inv h
    obtain ⟨a2, hg2, h⟩ := except_bind_ok_inv h
    obtain ⟨a3, hg3, h⟩ := except_bind_ok_inv h
    obtain ⟨a4, hg4, h⟩ := except_bind_ok_inv h
    exact ⟨lookup_isSome_of_getReqStr_ok hg1,
      lookup_isSome_of_getReqStr_ok hg2,
      lookup_isSome_of_getReqStr_ok hg3,
      lookup_isSome_of_getReqStr_ok hg4⟩
  · intro o g h
    unfold GroupDetails.validate at h
    obtain ⟨a1, hg1, h⟩ := except_bind_ok_inv h
    obtain ⟨a2, hg2, h⟩ := except_bind_ok_inv h
    obtain ⟨a3, hg3, h⟩ := except_bind_ok_inv h
    obtain ⟨a4, hg4, h⟩ := except_bind_ok_inv h
    obtain ⟨a5, hg5, h⟩ := except_bind_ok_inv h
    obtain ⟨a6, hg6, h⟩ := except_bind_ok_inv h
    obtain ⟨a7, hg7, h⟩ := except_bind_ok_inv h
    exact ⟨lookup_isSome_of_getReqStr_ok hg1,
      lookup_isSome_of_getReqStr_ok hg2,
      lookup_isSome_of_getReqStr_ok hg3,
      lookup_isSome_of_getReqStr_ok hg4,
      lookup_isSome_of_getMembersField_ok hg7⟩

/-- C10 witness: the fixtures carrying exactly the required fields
validate, with `status`, timestamps and the optional fields defaulted. -/
theorem validation_defaults_and_required_witness :
    GroupMember.validate rawMember0 = .ok member0 ∧
    GroupDetails.validate rawGroup0 now0 = .ok gd0 := by
  constructor
  · exact (validation_defaults_and_required now0).1 rawMember0 "M1" "Ada"
      "Lovelace" "ada@example.com" rfl rfl rfl rfl rfl rfl rfl rfl rfl
  · exact (validation_defaults_and_required now0).2.1 rawGroup0 "GRP_12345"
      "Acme Group Plan" "corporate" "2024-01-01"
      (JsonArr.ofList [.obj rawMember0]) [member0] rfl rfl rfl rfl rfl rfl
      rfl rfl rfl rfl rfl
